import Mathlib

/-!
Verification of the Kikuchi pattern simulation core
(`kikuchipy/simulations/kikuchi_pattern_simulator.py`).

The Python source is shallowly embedded below.  Machine floats are
modelled as exact numbers: the detector-projection pipeline
(`on_detector`) is linear algebra over `ℚ`, while the master-pattern
renderer (`calculate_master_pattern`) needs `Real.arccos` and complex
moduli and is therefore modelled over `ℝ`/`ℂ`.  Navigation shapes
(0, 1 or 2 leading array dimensions indexing an orientation batch)
are modelled by an arbitrary finite index type `nav`.  Fallible code
returns `Except PyErr`.
-/

/-- Integer index triplets `(h, k, l)` / `(u, v, w)`. -/
abbrev T3 := ℤ × ℤ × ℤ

/-- Real 3-vectors for unit directions on the sphere. -/
abbrev V3 := ℝ × ℝ × ℝ

/-- 3×3 rational matrices for the reference-frame transform chain. -/
abbrev M3 := Matrix (Fin 3) (Fin 3) ℚ

/-- Errors raised by the simulator.  The source raises `ValueError`;
the constructor `missingAttributeError` models the distinct error
class named by the specification's error taxonomy, so that statements
about the raised error's class can be expressed. -/
inductive PyErr where
  | valueError : String → PyErr
  | missingAttributeError : String → PyErr
  deriving DecidableEq

/-! ## Hemisphere visibility filter

Embedding of `_get_coordinates_in_upper_hemisphere` (source lines
467–476): `upper_hemisphere = z > 0`, and
`in_a_pattern = sum(upper_hemisphere, axis=navigation_axes) != 0`. -/

/-- `z_coordinates > 0`: per-orientation boolean mask with `True` when
the projected z-component is strictly positive. -/
def upper_hemisphere {nav : Type} [Fintype nav] {N : ℕ}
    (z_coordinates : nav → Fin N → ℚ) : nav → Fin N → Bool :=
  fun x i => decide (0 < z_coordinates x i)

/-- `da.sum(upper_hemisphere, axis=navigation_axes) != 0`: the boolean
sum over all navigation axes compared against zero. -/
def in_a_pattern {nav : Type} [Fintype nav] {N : ℕ}
    (z_coordinates : nav → Fin N → ℚ) : Fin N → Bool :=
  fun i =>
    decide ((∑ x : nav, if upper_hemisphere z_coordinates x i then 1 else 0 : ℕ) ≠ 0)

/-! ## Reference-frame transform chain (`on_detector`, lines 224–247)

`u_s` (the sample→detector tilt-correction rotation, built from the
detector tilt angles by trigonometry on lines 226–229) enters the
pipeline as an input matrix; the claims treat it as an opaque rotation.
-/

/-- `u_os = da.matmul(u_o, u_s)`: per-orientation rotation composed
with the tilt correction. -/
def u_os (u_o u_s : M3) : M3 := u_o * u_s

/-- `u_kstar = da.matmul(u_astar, u_os)`: basis change from the
cartesian crystal frame to the reciprocal crystal frame, composed onto
the chain. -/
def u_kstar (u_astar u_os_arg : M3) : M3 := u_astar * u_os_arg

/-- `u_k = da.matmul(u_a, u_os)`: direct-frame variant of the chain
used for zone axes (source line 280). -/
def u_k (u_a u_os_arg : M3) : M3 := u_a * u_os_arg

/-- An integer index triplet viewed as a rational row vector. -/
def toVec (t : T3) : Fin 3 → ℚ := ![(t.1 : ℚ), (t.2.1 : ℚ), (t.2.2 : ℚ)]

/-! ## Zone-axis deriver (`on_detector`, lines 265–273) -/

/-- `np.cross` on integer triplets. -/
def cross3 (a b : T3) : T3 :=
  (a.2.1 * b.2.2 - a.2.2 * b.2.1,
   a.2.2 * b.1 - a.1 * b.2.2,
   a.1 * b.2.1 - a.2.1 * b.1)

/-- Lexicographic order on triplets, the row order used by
`np.unique(..., axis=0)`. -/
def tripleLe (a b : T3) : Prop :=
  a.1 < b.1 ∨ (a.1 = b.1 ∧ (a.2.1 < b.2.1 ∨ (a.2.1 = b.2.1 ∧ a.2.2 ≤ b.2.2)))

instance : DecidableRel tripleLe := fun a b => by
  unfold tripleLe; infer_instance

/-- `np.unique(uvw, axis=0)`: sort rows lexicographically and remove
exact duplicates. -/
def npUnique (l : List T3) : List T3 := (List.insertionSort tripleLe l).dedup

/-- Modelled from the spec: `Miller(uvw=uvw, phase=...).round()` (orix,
outside this repository) reduces a triplet to its smallest co-linear
integer representative by dividing the components by their greatest
common divisor; the sign of the input is kept (the sign convention is
implementation-defined upstream). -/
def reduceTriplet (v : T3) : T3 :=
  let g : ℤ := (Int.gcd (Int.gcd v.1 v.2.1) v.2.2 : ℤ)
  if g = 0 then v else (v.1 / g, v.2.1 / g, v.2.2 / g)

/-- Zone axes `<uvw>` from `{hkl}`: cross products of every ordered
pair, zero vectors dropped (`~np.isclose(uvw, 0).all(axis=-1)`),
`np.unique`, reduction to smallest integer triplets (`Miller.round`),
and a final deduplication (`Miller.unique`). -/
def derive_zone_axes (hkl : List T3) : List T3 :=
  let uvw := (hkl.flatMap fun a => hkl.map (cross3 a)).filter
    fun v => decide (v ≠ ((0 : ℤ), (0 : ℤ), (0 : ℤ)))
  let uvw := npUnique uvw
  (uvw.map reduceTriplet).dedup

/-! ## Detector projector (`on_detector`, lines 200–324) -/

/-- Detector geometry.  `r_max` is the per-navigation-element maximum
gnomonic radius (the `EBSDDetector.r_max` attribute, flattened); the
tilt angles only enter through the tilt-correction rotation `u_s`. -/
structure Detector where
  sample_tilt : ℚ
  tilt : ℚ
  r_max : List ℚ

/-- Intermediate result of projecting a list of index triplets through
a per-orientation transform and culling by hemisphere visibility
(steps shared by `{hkl}` and `<uvw>` in `on_detector`):
the globally visible triplets, their detector-frame coordinate rows
per orientation, and the per-orientation visibility mask restricted to
the visible subset. -/
structure ProjectedSet (nav : Type) where
  visible : List T3
  coords : nav → List (Fin 3 → ℚ)
  in_pattern : nav → List Bool

/-- Project `items` through the per-orientation transform `u`
(`matmul(items, u)` on row vectors), compute the visibility masks with
`_get_coordinates_in_upper_hemisphere`, and restrict everything to the
triplets visible in at least one pattern (source lines 246–260 for
`{hkl}`, 283–295 for `<uvw>`). -/
def projectAndCull {nav : Type} [Fintype nav]
    (u : nav → M3) (items : List T3) : ProjectedSet nav :=
  let rows : nav → Fin items.length → (Fin 3 → ℚ) :=
    fun x i => Matrix.vecMul (toVec (items.get i)) (u x)
  let z : nav → Fin items.length → ℚ := fun x i => rows x i 2
  let keep : List (Fin items.length) :=
    (List.finRange items.length).filter fun i => in_a_pattern z i
  { visible := keep.map fun i => items.get i
    coords := fun x => keep.map fun i => rows x i
    in_pattern := fun x => keep.map fun i => upper_hemisphere z x i }

/-- One of the two sub-bundles (`KikuchiPatternLine` /
`KikuchiPatternZoneAxis`) of the geometrical simulation. -/
structure FeatureBundle (nav : Type) where
  indices : List T3
  detector_coords : nav → List (Fin 3 → ℚ)
  in_pattern : nav → List Bool
  max_r_gnomonic : ℚ

/-- The `GeometricalKikuchiPatternSimulation` output aggregate. -/
structure Simulation (nav : Type) where
  lines : FeatureBundle nav
  zone_axes : FeatureBundle nav

/-- Embedding of `KikuchiPatternSimulator.on_detector`.  `u_s_mat` is
the sample→detector tilt-correction rotation (lines 226–229),
`u_astar_mat = lattice.recbase.T` and `u_a_mat = lattice.base` are the
phase's reciprocal and direct basis matrices, `u_o` the orientation
batch as matrices, `hkl` the reflector index triplets. -/
def on_detector {nav : Type} [Fintype nav] (detector : Detector)
    (u_s_mat u_astar_mat u_a_mat : M3) (u_o : nav → M3)
    (hkl : List T3) : Simulation nav :=
  let lineSet := projectAndCull
    (fun x => u_kstar u_astar_mat (u_os (u_o x) u_s_mat)) hkl
  -- Max. gnomonic radius to consider: `detector.r_max[0]`
  let max_r_gnomonic := detector.r_max.headI
  let uvw := derive_zone_axes lineSet.visible
  let zoneSet := projectAndCull
    (fun x => u_k u_a_mat (u_os (u_o x) u_s_mat)) uvw
  { lines :=
      { indices := lineSet.visible
        detector_coords := lineSet.coords
        in_pattern := lineSet.in_pattern
        max_r_gnomonic := max_r_gnomonic }
    zone_axes :=
      { indices := zoneSet.visible
        detector_coords := zoneSet.coords
        in_pattern := zoneSet.in_pattern
        max_r_gnomonic := max_r_gnomonic } }

/-! ## Master-pattern renderer (`calculate_master_pattern`, lines 76–198,
and `_get_pattern`, lines 440–464) -/

/-- Reflector set (`ReciprocalLatticeVector`): per-reflector structure
factor and Bragg angle, `none` until calculated upstream (the arrays
are filled all at once by the upstream calculators), and the
reflectors' unit direction vectors (`Vector3d(reflectors).unit`). -/
structure ReflectorSet where
  structure_factor : List (Option ℂ)
  theta : List (Option ℝ)
  dir : List V3

/-- `xs[0] is None`: the probe used by the precondition checks
(`self.reflectors.theta[0] is None`). -/
def firstIsNone {α : Type} (xs : List (Option α)) : Bool :=
  match xs.head? with
  | some none => true
  | _ => false

/-- `_raise_if_no_theta` (lines 424–429). -/
def raiseIfNoTheta (r : ReflectorSet) : Except PyErr Unit :=
  if firstIsNone r.theta then
    .error (.valueError
      "Reflectors have no Bragg angles. Calculate with `diffsims.crystallography.ReciprocalLatticeVector.calculate_theta()`.")
  else .ok ()

/-- `_raise_if_no_structure_factor` (lines 431–437). -/
def raiseIfNoStructureFactor (r : ReflectorSet) : Except PyErr Unit :=
  if firstIsNone r.structure_factor then
    .error (.valueError
      "Reflectors have no structure factors. Calculate with `diffsims.crystallography.ReciprocalLatticeVector.calculate_structure_factor()`.")
  else .ok ()

/-- Hemisphere dispatch (lines 117–127): `"both" → [-1, 1]`,
`"north" → [-1]`, `"south" → [1]`, otherwise a `ValueError`. -/
def polesOf (hemisphere : String) : Except PyErr (List ℤ) :=
  match hemisphere with
  | "both" => .ok [-1, 1]
  | "north" => .ok [-1]
  | "south" => .ok [1]
  | _ => .error (.valueError
      "Unknown `hemisphere`, valid options are 'north', 'south' or 'both'")

/-- Intensity scaling dispatch (lines 129–139):
`"linear" → abs(F)`, `"square" → abs(F * F.conjugate())`,
`None → np.ones(size)`, otherwise a `ValueError`. -/
noncomputable def intensityOf (r : ReflectorSet) (scaling : Option String) :
    Except PyErr (List ℝ) :=
  match scaling with
  | some "linear" => .ok (r.structure_factor.map fun o => Complex.abs (o.getD 0))
  | some "square" => .ok (r.structure_factor.map fun o =>
      Complex.abs ((o.getD 0) * (starRingEnd ℂ) (o.getD 0)))
  | none => .ok (List.replicate r.structure_factor.length 1)
  | some _ => .error (.valueError
      "Unknown `scaling`, valid options are 'linear', 'square' or None")

/-- The exact-zone threshold `1e-7` (line 168). -/
noncomputable def zoneTol : ℝ := 1 / 10 ^ 7

/-- `mask1 = da.absolute(dp) <= 1e-7` (line 168): the exact zone-line
condition on a dot product. -/
def isExactZone (dp : ℝ) : Prop := |dp| ≤ zoneTol

/-- `mask2 = (angles >= theta1) & (angles <= theta2) & ~mask1`
(lines 169–171) with `angles = arccos(dp)`, `theta1 = pi/2 - theta`
and `theta2 = pi/2`: the inside-band condition. -/
def isInsideBand (dp theta : ℝ) : Prop :=
  (Real.arccos dp ≥ Real.pi / 2 - theta ∧ Real.arccos dp ≤ Real.pi / 2) ∧
    ¬ isExactZone dp

open Classical in
/-- `np.sum(intensity_part, where=mask, axis=1)`: sum the intensities
at the positions where the mask holds. -/
noncomputable def sumWhere (intensity : List ℝ) (mask : List Prop) : ℝ :=
  ((intensity.zip mask).map fun p => if p.2 then p.1 else 0).sum

/-- `_get_pattern` (lines 440–464), one pattern coordinate:
`0.5 * np.sum(intensity, where=mask1) + np.sum(intensity, where=mask2)`. -/
noncomputable def get_pattern (intensity : List ℝ) (mask1 mask2 : List Prop) : ℝ :=
  0.5 * sumWhere intensity mask1 + sumWhere intensity mask2

open Classical in
/-- The contribution of one (grid point, reflector) pair: half the
scaled intensity on the exact zone line, the full scaled intensity
inside the band, nothing otherwise. -/
noncomputable def contribution (intensity dp theta : ℝ) : ℝ :=
  if isExactZone dp then 0.5 * intensity
  else if isInsideBand dp theta then intensity
  else 0

/-- `np.linspace(-1, 1, 2 * half_size + 1)[k] = -1 + k / half_size`
(line 149). -/
noncomputable def linspaceVal (half_size k : ℕ) : ℝ :=
  -1 + (k : ℝ) / (half_size : ℝ)

/-- Modelled from the spec: the inverse stereographic projection
(`orix.projections.InverseStereographicProjection(pole).xy2vector`,
outside this repository) maps a stereographic coordinate pair to a
unit direction on the hemisphere of the chosen pole; `pole = -1` is
the northern (upper) hemisphere. -/
noncomputable def xy2vector (pole : ℤ) (X Y : ℝ) : V3 :=
  let s := 1 + X ^ 2 + Y ^ 2
  (2 * X / s, 2 * Y / s, -(pole : ℝ) * (1 - X ^ 2 - Y ^ 2) / s)

/-- Euclidean dot product on `V3`. -/
noncomputable def dot3 (a b : V3) : ℝ := a.1 * b.1 + a.2.1 * b.2.1 + a.2.2 * b.2.2

/-- One pixel of the master pattern on the hemisphere of `pole`:
grid point `(row, col)` has stereographic coordinates
`(X, Y) = (arr[col], arr[row])`; the dot products with all reflector
directions (`da.einsum("ij,kj->ik", xyz_hemi, xyz_ref)`, line 162)
feed the two masks, and `_get_pattern` sums the contributions. -/
noncomputable def hemiPixel (pole : ℤ) (half_size : ℕ) (intensity theta : List ℝ)
    (dirs : List V3) (row col : ℕ) : ℝ :=
  let v := xy2vector pole (linspaceVal half_size col) (linspaceVal half_size row)
  let dps := dirs.map (dot3 v)
  get_pattern intensity (dps.map fun dp => isExactZone dp)
    ((dps.zip theta).map fun p => isInsideBand p.1 p.2)

/-- Output array shape (lines 179–186): `(2, size, size)` when both
hemispheres are stacked, `(size, size)` otherwise. -/
def shapeOf (hemisphere : String) (size : ℕ) : List ℕ :=
  if hemisphere = "both" then [2, size, size] else [size, size]

/-- The returned `EBSDMasterPattern`: the (stacked) intensity array as
a list of per-hemisphere pixel grids together with its shape and the
metadata set on lines 192–198. -/
structure MasterPattern where
  shape : List ℕ
  slices : List (ℕ → ℕ → ℝ)
  hemisphere : String
  projection : String
  mode : String

/-- Embedding of `KikuchiPatternSimulator.calculate_master_pattern`:
the precondition checks and the option dispatches run first and
short-circuit with their error before the per-hemisphere pixel grids
(the chunked dask materialization) enter the result. -/
noncomputable def calculate_master_pattern (r : ReflectorSet) (half_size : ℕ)
    (hemisphere : String) (scaling : Option String) :
    Except PyErr MasterPattern :=
  match raiseIfNoTheta r with
  | .error e => .error e
  | .ok _ =>
  match raiseIfNoStructureFactor r with
  | .error e => .error e
  | .ok _ =>
  match polesOf hemisphere with
  | .error e => .error e
  | .ok poles =>
  match intensityOf r scaling with
  | .error e => .error e
  | .ok intensity =>
    let size := 2 * half_size + 1
    .ok { shape := shapeOf hemisphere size
          slices := poles.map fun p =>
            hemiPixel p half_size intensity (r.theta.map fun o => o.getD 0) r.dir
          hemisphere := hemisphere
          projection := "stereographic"
          mode := "kinematical" }

/-- The property claimed by the specification for a reflector set with
a missing attribute: the call fails with the `MissingAttributeError`
error class. -/
def failsWithMissingAttribute (e : Except PyErr MasterPattern) : Prop :=
  ∃ s, e = .error (.missingAttributeError s)

/-! ## Theorems -/

/-- C1: the hemisphere visibility filter returns (a) a per-orientation
mask that is `True` exactly when the projected z-component is strictly
positive (so `z == 0` is classified not-visible), and (b) a reduced
mask over the item axis that is `True` exactly when at least one
orientation has `z > 0` for the item (logical OR over all navigation
axes). -/
theorem C1_hemisphere_visibility {nav : Type} [Fintype nav] {N : ℕ}
    (z : nav → Fin N → ℚ) (x : nav) (i : Fin N) :
    (upper_hemisphere z x i = true ↔ 0 < z x i) ∧
    (z x i = 0 → upper_hemisphere z x i = false) ∧
    (in_a_pattern z i = true ↔ ∃ y, 0 < z y i) := by
  refine ⟨by simp [upper_hemisphere], ?_, ?_⟩
  · intro h
    simp [upper_hemisphere, h]
  · simp [in_a_pattern, upper_hemisphere, Finset.sum_eq_zero_iff,
      Finset.filter_eq_empty_iff, not_forall, not_not]

/-- Witness for C1 at the visibility boundary: a direction with
`z == 0` exactly is classified not-visible. -/
theorem C1_hemisphere_visibility_witness :
    (fun (_ : Fin 1) (_ : Fin 1) => (0 : ℚ)) 0 0 = 0 ∧
    upper_hemisphere (fun (_ : Fin 1) (_ : Fin 1) => (0 : ℚ)) 0 0 = false :=
  ⟨rfl, (C1_hemisphere_visibility (fun _ _ => (0 : ℚ)) 0 0).2.1 rfl⟩

/-- C4: in `on_detector` the composite transform applied to each
reflector index triplet is the right-multiplication chain
`detector vector = index row vector · (basis change · orientation ·
tilt correction)`, with this composition order preserved exactly. -/
theorem C4_transform_chain {nav : Type} [Fintype nav] (detector : Detector)
    (u_s_mat u_astar_mat u_a_mat : M3) (u_o : nav → M3) (hkl : List T3) (x : nav) :
    (∀ Uo : M3, u_kstar u_astar_mat (u_os Uo u_s_mat) = u_astar_mat * Uo * u_s_mat) ∧
    (on_detector detector u_s_mat u_astar_mat u_a_mat u_o hkl).lines.detector_coords x
      = (on_detector detector u_s_mat u_astar_mat u_a_mat u_o hkl).lines.indices.map
          (fun t => Matrix.vecMul (toVec t) (u_astar_mat * u_o x * u_s_mat)) := by
  constructor
  · intro Uo
    simp [u_kstar, u_os, Matrix.mul_assoc]
  · simp only [on_detector, projectAndCull, List.map_map]
    congr 1
    funext i
    simp [u_kstar, u_os, Matrix.mul_assoc]

/-- C10: `on_detector` stores, in both the lines bundle and the
zone-axes bundle, the detector's `r_max` value at flat navigation
index 0 only, independently of any further per-navigation-element
radii. -/
theorem C10_max_gnomonic_radius {nav : Type} [Fintype nav]
    (sample_tilt tilt a : ℚ) (rest : List ℚ)
    (u_s_mat u_astar_mat u_a_mat : M3) (u_o : nav → M3) (hkl : List T3) :
    (on_detector ⟨sample_tilt, tilt, a :: rest⟩ u_s_mat u_astar_mat u_a_mat
        u_o hkl).lines.max_r_gnomonic = a ∧
    (on_detector ⟨sample_tilt, tilt, a :: rest⟩ u_s_mat u_astar_mat u_a_mat
        u_o hkl).zone_axes.max_r_gnomonic = a :=
  ⟨rfl, rfl⟩

/-- C7: the zone-axis deriver output is deduplicated, and for the two
reflectors `(1,0,0)` and `(0,1,0)` it derives exactly the zone axis
`(0,0,1)` up to sign: the output is `[(0,0,-1), (0,0,1)]` and every
derived triplet is `(0,0,1)` or its negation. -/
theorem C7_zone_axis_derivation :
    (∀ l : List T3, (derive_zone_axes l).Nodup) ∧
    derive_zone_axes [(1, 0, 0), (0, 1, 0)] = [(0, 0, -1), (0, 0, 1)] ∧
    (∀ v ∈ derive_zone_axes [(1, 0, 0), (0, 1, 0)],
      v = ((0 : ℤ), (0 : ℤ), (1 : ℤ)) ∨ v = ((0 : ℤ), (0 : ℤ), (-1 : ℤ))) :=
  ⟨fun _ => List.nodup_dedup _, by decide, by decide⟩

/-- Witness for C7: `(0,0,1)` is among the derived zone axes and is
`(0,0,1)` up to sign. -/
theorem C7_zone_axis_derivation_witness :
    ((0 : ℤ), (0 : ℤ), (1 : ℤ)) ∈ derive_zone_axes [(1, 0, 0), (0, 1, 0)] ∧
    (((0 : ℤ), (0 : ℤ), (1 : ℤ)) = ((0 : ℤ), (0 : ℤ), (1 : ℤ)) ∨
      ((0 : ℤ), (0 : ℤ), (1 : ℤ)) = ((0 : ℤ), (0 : ℤ), (-1 : ℤ))) :=
  ⟨by decide, C7_zone_axis_derivation.2.2 _ (by decide)⟩

/-- The OR-reduction over a non-empty constant orientation batch
agrees with the reduction over a single orientation. -/
lemma in_a_pattern_const {nav : Type} [Fintype nav] [Nonempty nav] {N : ℕ}
    (w : Fin N → ℚ) (i : Fin N) :
    in_a_pattern (fun _ : nav => w) i = in_a_pattern (fun _ : Fin 1 => w) i := by
  apply decide_eq_decide.mpr
  simp only [upper_hemisphere]
  simp [Finset.sum_const, Finset.card_univ, smul_eq_mul,
    Nat.mul_ne_zero_iff, Fintype.card_ne_zero]

/-- Projection and culling of a constant orientation batch agrees,
cell for cell, with the single-orientation result. -/
lemma projectAndCull_const {nav : Type} [Fintype nav] [Nonempty nav]
    (f : M3) (items : List T3) (x : nav) :
    (projectAndCull (fun _ : nav => f) items).visible
        = (projectAndCull (fun _ : Fin 1 => f) items).visible ∧
    (projectAndCull (fun _ : nav => f) items).coords x
        = (projectAndCull (fun _ : Fin 1 => f) items).coords 0 ∧
    (projectAndCull (fun _ : nav => f) items).in_pattern x
        = (projectAndCull (fun _ : Fin 1 => f) items).in_pattern 0 := by
  simp only [projectAndCull, upper_hemisphere]
  rw [show (fun (i : Fin items.length) =>
      in_a_pattern (fun (_ : nav) (i : Fin items.length) =>
        Matrix.vecMul (toVec (items.get i)) f 2) i)
      = (fun (i : Fin items.length) =>
      in_a_pattern (fun (_ : Fin 1) (i : Fin items.length) =>
        Matrix.vecMul (toVec (items.get i)) f 2) i) from
    funext fun i => in_a_pattern_const _ i]
  exact ⟨rfl, rfl, rfl⟩

/-- C8: `on_detector` with a constant orientation batch of any
non-empty navigation shape yields, for every grid cell, the same
visible index sets, detector-frame coordinates and visibility masks as
the single-orientation call, for lines and zone axes alike. -/
theorem C8_navigation_shape {nav : Type} [Fintype nav] [Nonempty nav]
    (detector : Detector) (u_s_mat u_astar_mat u_a_mat uo : M3)
    (hkl : List T3) (x : nav) :
    ((on_detector detector u_s_mat u_astar_mat u_a_mat (fun _ : nav => uo)
        hkl).lines.indices
      = (on_detector detector u_s_mat u_astar_mat u_a_mat (fun _ : Fin 1 => uo)
        hkl).lines.indices) ∧
    ((on_detector detector u_s_mat u_astar_mat u_a_mat (fun _ : nav => uo)
        hkl).lines.detector_coords x
      = (on_detector detector u_s_mat u_astar_mat u_a_mat (fun _ : Fin 1 => uo)
        hkl).lines.detector_coords 0) ∧
    ((on_detector detector u_s_mat u_astar_mat u_a_mat (fun _ : nav => uo)
        hkl).lines.in_pattern x
      = (on_detector detector u_s_mat u_astar_mat u_a_mat (fun _ : Fin 1 => uo)
        hkl).lines.in_pattern 0) ∧
    ((on_detector detector u_s_mat u_astar_mat u_a_mat (fun _ : nav => uo)
        hkl).zone_axes.indices
      = (on_detector detector u_s_mat u_astar_mat u_a_mat (fun _ : Fin 1 => uo)
        hkl).zone_axes.indices) ∧
    ((on_detector detector u_s_mat u_astar_mat u_a_mat (fun _ : nav => uo)
        hkl).zone_axes.detector_coords x
      = (on_detector detector u_s_mat u_astar_mat u_a_mat (fun _ : Fin 1 => uo)
        hkl).zone_axes.detector_coords 0) ∧
    ((on_detector detector u_s_mat u_astar_mat u_a_mat (fun _ : nav => uo)
        hkl).zone_axes.in_pattern x
      = (on_detector detector u_s_mat u_astar_mat u_a_mat (fun _ : Fin 1 => uo)
        hkl).zone_axes.in_pattern 0) := by
  have hline := @projectAndCull_const nav _ _
    (u_kstar u_astar_mat (u_os uo u_s_mat)) hkl x
  have huvw : derive_zone_axes
      (projectAndCull (fun _ : nav => u_kstar u_astar_mat (u_os uo u_s_mat))
        hkl).visible
      = derive_zone_axes
      (projectAndCull (fun _ : Fin 1 => u_kstar u_astar_mat (u_os uo u_s_mat))
        hkl).visible := by
    rw [hline.1]
  have hzone := @projectAndCull_const nav _ _
    (u_k u_a_mat (u_os uo u_s_mat))
    (derive_zone_axes
      (projectAndCull (fun _ : Fin 1 => u_kstar u_astar_mat (u_os uo u_s_mat))
        hkl).visible) x
  simp only [on_detector]
  refine ⟨hline.1, hline.2.1, hline.2.2, ?_, ?_, ?_⟩
  · rw [huvw]; exact hzone.1
  · rw [huvw]; exact hzone.2.1
  · rw [huvw]; exact hzone.2.2

/-- Witness for C8: a (5, 5) grid of identical orientations gives, at
a sample cell, the same line coordinates as the single orientation. -/
theorem C8_navigation_shape_witness :
    (on_detector ⟨0, 0, [1]⟩ 1 1 1 (fun _ : Fin 5 × Fin 5 => (1 : M3))
        [(1, 0, 0), (0, 1, 0)]).lines.detector_coords (0, 0)
      = (on_detector ⟨0, 0, [1]⟩ 1 1 1 (fun _ : Fin 1 => (1 : M3))
        [(1, 0, 0), (0, 1, 0)]).lines.detector_coords 0 :=
  (C8_navigation_shape ⟨0, 0, [1]⟩ 1 1 1 1 [(1, 0, 0), (0, 1, 0)] (0, 0)).2.1

lemma sumWhere_nil (m : List Prop) : sumWhere [] m = 0 := by
  simp [sumWhere]

open Classical in
lemma sumWhere_cons (a : ℝ) (intensity : List ℝ) (p : Prop) (m : List Prop) :
    sumWhere (a :: intensity) (p :: m) = (if p then a else 0) + sumWhere intensity m := by
  simp [sumWhere]

open Classical in
/-- Per (point, reflector) pair, the two mask contributions add up to
the three-way classified contribution. -/
lemma half_plus_band (intensity dp theta : ℝ) :
    0.5 * (if isExactZone dp then intensity else 0) +
        (if isInsideBand dp theta then intensity else 0)
      = contribution intensity dp theta := by
  by_cases h1 : isExactZone dp
  · rw [if_pos h1, if_neg fun h => h.2 h1, contribution, if_pos h1]
    ring
  · rw [if_neg h1, contribution, if_neg h1]
    by_cases h2 : isInsideBand dp theta
    · rw [if_pos h2]
      ring
    · rw [if_neg h2]
      ring

/-- C3: every (grid point, reflector) pair falls in exactly one of the
three disjoint cases — exact zone line (half the scaled intensity),
inside band and not exact zone (full scaled intensity), or outside
(nothing) — and the pixel value computed by `_get_pattern` from the
two masks is the sum of these per-pair contributions over all
reflectors.  A triple `t = (intensity, dot product, Bragg angle)`
stands for one reflector at the grid point. -/
theorem C3_band_classification :
    (∀ ts : List (ℝ × ℝ × ℝ),
      get_pattern (ts.map fun t => t.1) (ts.map fun t => isExactZone t.2.1)
          (ts.map fun t => isInsideBand t.2.1 t.2.2)
        = (ts.map fun t => contribution t.1 t.2.1 t.2.2).sum) ∧
    (∀ dp theta : ℝ,
      (isExactZone dp ∧ ¬ isInsideBand dp theta) ∨
      (isInsideBand dp theta ∧ ¬ isExactZone dp) ∨
      (¬ isExactZone dp ∧ ¬ isInsideBand dp theta)) := by
  constructor
  · intro ts
    induction ts with
    | nil => simp [get_pattern, sumWhere]
    | cons t ts ih =>
      simp only [List.map_cons, List.sum_cons, get_pattern, sumWhere_cons] at ih ⊢
      rw [← ih, ← half_plus_band t.1 t.2.1 t.2.2]
      ring
  · intro dp theta
    by_cases h1 : isExactZone dp
    · exact Or.inl ⟨h1, fun h => h.2 h1⟩
    · by_cases h2 : isInsideBand dp theta
      · exact Or.inr (Or.inl ⟨h2, h1⟩)
      · exact Or.inr (Or.inr ⟨h1, h2⟩)

/-- C2, counterexample: for a reflector set whose Bragg angles are
uncalculated, `calculate_master_pattern` does not fail with a
`MissingAttributeError` as the claim states — it raises a plain
`ValueError`. -/
theorem C2_missing_attribute_cex :
    ¬ failsWithMissingAttribute
        (calculate_master_pattern ⟨[some 1], [none], [(1, 0, 0)]⟩ 1 "north"
          (some "linear")) ∧
    calculate_master_pattern ⟨[some 1], [none], [(1, 0, 0)]⟩ 1 "north"
        (some "linear")
      = .error (.valueError
          "Reflectors have no Bragg angles. Calculate with `diffsims.crystallography.ReciprocalLatticeVector.calculate_theta()`.") := by
  have h : calculate_master_pattern
      (⟨[some 1], [none], [(1, 0, 0)]⟩ : ReflectorSet) 1 "north" (some "linear")
      = .error (.valueError
        "Reflectors have no Bragg angles. Calculate with `diffsims.crystallography.ReciprocalLatticeVector.calculate_theta()`.") := rfl
  refine ⟨?_, h⟩
  rintro ⟨s, hs⟩
  rw [h] at hs
  simp at hs

/-- C2, amended: `calculate_master_pattern` fails with a `ValueError`
when the Bragg angle, or else the structure factor, is absent on the
first reflector of the set (the precondition probes index 0), and the
error is the same for every half-size, hemisphere and scaling — the
checks run before any chunked evaluation enters the result. -/
theorem C2_precondition_valueError (r : ReflectorSet) (half_size : ℕ)
    (hemisphere : String) (scaling : Option String) :
    (firstIsNone r.theta = true →
      calculate_master_pattern r half_size hemisphere scaling
        = .error (.valueError
            "Reflectors have no Bragg angles. Calculate with `diffsims.crystallography.ReciprocalLatticeVector.calculate_theta()`.")) ∧
    (firstIsNone r.theta = false → firstIsNone r.structure_factor = true →
      calculate_master_pattern r half_size hemisphere scaling
        = .error (.valueError
            "Reflectors have no structure factors. Calculate with `diffsims.crystallography.ReciprocalLatticeVector.calculate_structure_factor()`.")) := by
  constructor
  · intro ht
    simp [calculate_master_pattern, raiseIfNoTheta, ht]
  · intro ht hf
    simp [calculate_master_pattern, raiseIfNoTheta, raiseIfNoStructureFactor, ht, hf]

/-- Witness for C2: a concrete reflector set with no Bragg angles
satisfies the precondition probe and produces the `ValueError`. -/
theorem C2_precondition_valueError_witness :
    firstIsNone (⟨[some 1], [none], [(1, 0, 0)]⟩ : ReflectorSet).theta = true ∧
    calculate_master_pattern ⟨[some 1], [none], [(1, 0, 0)]⟩ 2 "south" none
      = .error (.valueError
          "Reflectors have no Bragg angles. Calculate with `diffsims.crystallography.ReciprocalLatticeVector.calculate_theta()`.") :=
  ⟨rfl, (C2_precondition_valueError ⟨[some 1], [none], [(1, 0, 0)]⟩ 2 "south"
    none).1 rfl⟩

open Classical in
/-- A master-pattern pixel for a single-reflector set, in terms of the
two masks at the pixel's dot product. -/
lemma hemiPixel_single (pole : ℤ) (h : ℕ) (I t : ℝ) (d : V3) (row col : ℕ) :
    hemiPixel pole h [I] [t] [d] row col
      = 0.5 * (if isExactZone
            (dot3 (xy2vector pole (linspaceVal h col) (linspaceVal h row)) d)
          then I else 0)
        + (if isInsideBand
            (dot3 (xy2vector pole (linspaceVal h col) (linspaceVal h row)) d) t
          then I else 0) := by
  simp [hemiPixel, get_pattern, sumWhere]

/-- C5, counterexample: at a grid point lying on the exact zone line
of the single reflector (stereographic `X = 0` against direction
`(1,0,0)`, so the dot product is exactly `0`), the `"square"` output
pixel is half `|F|^2` while the `"linear"` output pixel squared is a
quarter `|F|^2` — the outputs are not equal element for element. -/
theorem C5_scaling_zone_cex :
    intensityOf ⟨[some 1], [some 1], [(1, 0, 0)]⟩ (some "square")
        = .ok [Complex.abs ((1 : ℂ) * (starRingEnd ℂ) 1)] ∧
    intensityOf ⟨[some 1], [some 1], [(1, 0, 0)]⟩ (some "linear")
        = .ok [Complex.abs (1 : ℂ)] ∧
    hemiPixel (-1) 1 [Complex.abs ((1 : ℂ) * (starRingEnd ℂ) 1)] [1] [(1, 0, 0)] 0 1
      ≠ (hemiPixel (-1) 1 [Complex.abs (1 : ℂ)] [1] [(1, 0, 0)] 0 1) ^ 2 := by
  have hdp : dot3 (xy2vector (-1) (linspaceVal 1 1) (linspaceVal 1 0))
      ((1 : ℝ), (0 : ℝ), (0 : ℝ)) = 0 := by
    norm_num [dot3, xy2vector, linspaceVal]
  have hez : isExactZone (0 : ℝ) := by
    rw [isExactZone, zoneTol]
    norm_num
  have hnb : ¬ isInsideBand (0 : ℝ) 1 := fun hh => hh.2 hez
  have habs : Complex.abs ((1 : ℂ) * (starRingEnd ℂ) 1) = 1 := by simp
  have habs1 : Complex.abs (1 : ℂ) = 1 := by simp
  have h1 : hemiPixel (-1) 1 [Complex.abs ((1 : ℂ) * (starRingEnd ℂ) 1)] [1]
      [(1, 0, 0)] 0 1 = 0.5 := by
    rw [hemiPixel_single, hdp, if_pos hez, if_neg hnb, habs]
    ring
  have h2 : hemiPixel (-1) 1 [Complex.abs (1 : ℂ)] [1] [(1, 0, 0)] 0 1 = 0.5 := by
    rw [hemiPixel_single, hdp, if_pos hez, if_neg hnb, habs1]
    ring
  refine ⟨rfl, rfl, ?_⟩
  rw [h1, h2]
  norm_num

/-- C5, amended: the per-reflector intensity is `|F|` for `"linear"`,
`|F|^2` via `F * conj(F)` for `"square"`, and `1` for every reflector
when scaling is none; consequently, for a single-reflector set the
`"square"` output equals the `"linear"` output squared at every pixel
whose dot product is not in the exact-zone set (`|dot| ≤ 1e-7`); on
exact zone-line pixels the two differ (half versus a quarter of
`|F|^2`). -/
theorem C5_scaling_squared :
    (∀ r : ReflectorSet,
      intensityOf r (some "linear")
          = .ok (r.structure_factor.map fun o => Complex.abs (o.getD 0)) ∧
      intensityOf r (some "square")
          = .ok (r.structure_factor.map fun o =>
              Complex.abs ((o.getD 0) * (starRingEnd ℂ) (o.getD 0))) ∧
      intensityOf r none = .ok (List.replicate r.structure_factor.length 1)) ∧
    (∀ (F : ℂ) (t : ℝ) (d : V3) (pole : ℤ) (h row col : ℕ),
      ¬ isExactZone
          (dot3 (xy2vector pole (linspaceVal h col) (linspaceVal h row)) d) →
      hemiPixel pole h [Complex.abs (F * (starRingEnd ℂ) F)] [t] [d] row col
        = (hemiPixel pole h [Complex.abs F] [t] [d] row col) ^ 2) := by
  constructor
  · exact fun r => ⟨rfl, rfl, rfl⟩
  · intro F t d pole h row col hnz
    rw [hemiPixel_single, hemiPixel_single, if_neg hnz, if_neg hnz]
    by_cases hb : isInsideBand
      (dot3 (xy2vector pole (linspaceVal h col) (linspaceVal h row)) d) t
    · rw [if_pos hb, if_pos hb, map_mul, Complex.abs_conj]
      ring
    · rw [if_neg hb, if_neg hb]
      ring

/-- Witness for C5: a pixel off the exact-zone set (dot product `2/3`)
where the square output equals the linear output squared. -/
theorem C5_scaling_squared_witness :
    ¬ isExactZone (dot3 (xy2vector (-1) (linspaceVal 1 2) (linspaceVal 1 0))
        ((1 : ℝ), (0 : ℝ), (0 : ℝ))) ∧
    hemiPixel (-1) 1 [Complex.abs ((1 : ℂ) * (starRingEnd ℂ) 1)] [1] [(1, 0, 0)] 0 2
      = (hemiPixel (-1) 1 [Complex.abs (1 : ℂ)] [1] [(1, 0, 0)] 0 2) ^ 2 :=
  ⟨by
    simp only [isExactZone, zoneTol, dot3, xy2vector, linspaceVal, abs_le, not_and,
      not_le]
    norm_num,
   C5_scaling_squared.2 1 1 (1, 0, 0) (-1) 1 0 2 (by
    simp only [isExactZone, zoneTol, dot3, xy2vector, linspaceVal, abs_le, not_and,
      not_le]
    norm_num)⟩

/-- Any of the three valid scaling options yields an intensity list. -/
lemma intensityOf_ok (r : ReflectorSet) (scaling : Option String)
    (hsc : scaling = some "linear" ∨ scaling = some "square" ∨ scaling = none) :
    ∃ I, intensityOf r scaling = .ok I := by
  rcases hsc with h | h | h <;> subst h <;> exact ⟨_, rfl⟩

/-- C6: for every half-size `h ≥ 1` and valid options,
`calculate_master_pattern` succeeds with an array whose last two
dimensions are `(2h+1, 2h+1)`; for `hemisphere = "both"` the north and
south grids are stacked along one leading axis of length 2, otherwise
a single 2-D grid is returned. -/
theorem C6_grid_size (r : ReflectorSet) (half_size : ℕ) (hemisphere : String)
    (scaling : Option String) (hh : 1 ≤ half_size)
    (ht : firstIsNone r.theta = false)
    (hf : firstIsNone r.structure_factor = false)
    (hhem : hemisphere = "north" ∨ hemisphere = "south" ∨ hemisphere = "both")
    (hsc : scaling = some "linear" ∨ scaling = some "square" ∨ scaling = none) :
    ∃ mp, calculate_master_pattern r half_size hemisphere scaling = .ok mp ∧
      mp.shape.drop (mp.shape.length - 2)
        = [2 * half_size + 1, 2 * half_size + 1] ∧
      ((hemisphere = "both" ∧
          mp.shape = [2, 2 * half_size + 1, 2 * half_size + 1] ∧
          mp.slices.length = 2) ∨
       (hemisphere ≠ "both" ∧
          mp.shape = [2 * half_size + 1, 2 * half_size + 1] ∧
          mp.slices.length = 1)) := by
  obtain ⟨I, hI⟩ := intensityOf_ok r scaling hsc
  rcases hhem with h | h | h <;> subst h <;>
    simp [calculate_master_pattern, raiseIfNoTheta, raiseIfNoStructureFactor,
      ht, hf, hI, polesOf, shapeOf]

/-- Witness for C6: a concrete single-reflector set rendered at
`half_size = 1` on the northern hemisphere. -/
theorem C6_grid_size_witness :
    ((1 : ℕ) ≤ 1 ∧
      firstIsNone (⟨[some 1], [some 1], [(1, 0, 0)]⟩ : ReflectorSet).theta
        = false) ∧
    ∃ mp, calculate_master_pattern ⟨[some 1], [some 1], [(1, 0, 0)]⟩ 1 "north"
        (some "linear") = .ok mp ∧
      mp.shape.drop (mp.shape.length - 2) = [2 * 1 + 1, 2 * 1 + 1] ∧
      (("north" = "both" ∧ mp.shape = [2, 2 * 1 + 1, 2 * 1 + 1] ∧
          mp.slices.length = 2) ∨
       ("north" ≠ "both" ∧ mp.shape = [2 * 1 + 1, 2 * 1 + 1] ∧
          mp.slices.length = 1)) :=
  ⟨⟨le_refl 1, rfl⟩,
    C6_grid_size ⟨[some 1], [some 1], [(1, 0, 0)]⟩ 1 "north" (some "linear")
      (le_refl 1) rfl rfl (Or.inl rfl) (Or.inl rfl)⟩

/-- C9: with identical reflectors, half-size and scaling, the first
slice of the stacked `hemisphere = "both"` output equals the single
2-D output of the `hemisphere = "north"` call. -/
theorem C9_hemisphere_first_slice (r : ReflectorSet) (half_size : ℕ)
    (scaling : Option String)
    (ht : firstIsNone r.theta = false)
    (hf : firstIsNone r.structure_factor = false)
    (hsc : scaling = some "linear" ∨ scaling = some "square" ∨ scaling = none) :
    ∃ mpB mpN,
      calculate_master_pattern r half_size "both" scaling = .ok mpB ∧
      calculate_master_pattern r half_size "north" scaling = .ok mpN ∧
      mpB.slices.head? = mpN.slices.head? ∧
      mpN.slices.length = 1 := by
  obtain ⟨I, hI⟩ := intensityOf_ok r scaling hsc
  simp [calculate_master_pattern, raiseIfNoTheta, raiseIfNoStructureFactor,
    ht, hf, hI, polesOf]

/-- Witness for C9: the concrete single-reflector set at
`half_size = 1` with linear scaling. -/
theorem C9_hemisphere_first_slice_witness :
    (firstIsNone (⟨[some 1], [some 1], [(1, 0, 0)]⟩ : ReflectorSet).theta = false ∧
      firstIsNone
        (⟨[some 1], [some 1], [(1, 0, 0)]⟩ : ReflectorSet).structure_factor
        = false) ∧
    ∃ mpB mpN,
      calculate_master_pattern ⟨[some 1], [some 1], [(1, 0, 0)]⟩ 1 "both"
          (some "linear") = .ok mpB ∧
      calculate_master_pattern ⟨[some 1], [some 1], [(1, 0, 0)]⟩ 1 "north"
          (some "linear") = .ok mpN ∧
      mpB.slices.head? = mpN.slices.head? ∧
      mpN.slices.length = 1 :=
  ⟨⟨rfl, rfl⟩,
    C9_hemisphere_first_slice ⟨[some 1], [some 1], [(1, 0, 0)]⟩ 1
      (some "linear") rfl rfl (Or.inl rfl)⟩
